import Mathlib

/-!
Verification of the prompt-optimization repository against its specification.

The development shallowly embeds the Python sources:
 - `src/src/optimization/core/optimizer.py` (`OptimizationLoop.optimize_prompt`,
   `OptimizationLoop._calculate_improvement`),
 - `src/src/optimization/pipeline.py` (`PromptOptimizationPipeline._calculate_improvement`),
 - `src/src/models/ollama_api.py` (`OllamaAPI.generate_response`),
 - `src/advanced_model_testing.py` (`AdvancedModelTester.test_concurrent_performance`,
   `AdvancedModelTester.test_model_categories` aggregation).

Python floats are modelled as exact rationals, Python `None` as `Option.none`,
and Python runtime exceptions as an explicit `Except` error channel.
External collaborators (the HTTP service behind `requests`, the template
formatter `PromptEngineer.enhance_prompt` whose templates come from a YAML
file on disk, and the wall clock `datetime.now()`) are supplied as oracles.
-/

namespace PromptTuning

/-- Python runtime exceptions that the embedded code paths can raise. -/
inductive PyError where
  /-- subscripting or calling a method on `None`, or joining a non-string -/
  | typeError
  /-- dividing by integer zero -/
  | zeroDivisionError
  /-- reading a local variable that was never assigned -/
  | unboundLocalError
  /-- calling `.get` on a value that is not a dict -/
  | attributeError
  /-- `requests.post` / `requests.get` raised (connection error, timeout, ...) -/
  | requestError
  /-- `statistics.mean` applied to an empty list -/
  | statisticsError
  /-- built-in `max`/`min` applied to an empty list -/
  | valueError
deriving DecidableEq, Repr

/-- Embeds `OptimizationLoop._calculate_improvement`
(`src/src/optimization/core/optimizer.py` lines 104-108):
`return len(new_response) / len(original_response)` with no guard, so an empty
original response raises `ZeroDivisionError`. -/
def calculate_improvement (original_response new_response : String) : Except PyError ℚ :=
  if original_response.length = 0 then Except.error PyError.zeroDivisionError
  else Except.ok ((new_response.length : ℚ) / (original_response.length : ℚ))

/-- Embeds `PromptOptimizationPipeline._calculate_improvement`
(`src/src/optimization/pipeline.py` lines 111-123):
`length_ratio = len(final) / len(initial) if len(initial) > 0 else 0`. -/
def pipeline_calculate_improvement (initial final : String) : ℚ :=
  if 0 < initial.length then (final.length : ℚ) / (initial.length : ℚ) else 0

/-- Embeds the dataclass `OptimizationResult` (`src/src/data_structures/schemas.py`
lines 15-23).  The `metadata` dict built by `optimize_prompt` holds an
`"iterations"` entry always and a `"duration"` entry only on the accepted-round
path, so it is modelled by the two fields `metadata_iterations` and
`metadata_duration`.  `created_at` is the wall-clock reading (a rational). -/
structure OptimizationResult where
  original_prompt : String
  optimized_prompt : String
  initial_response : String
  final_response : String
  improvement_score : ℚ
  created_at : ℚ
  metadata_iterations : Nat
  metadata_duration : Option ℚ
deriving DecidableEq, Repr

deriving instance DecidableEq for Except

/-- Environment of `OptimizationLoop.optimize_prompt`:
 - `gen1 p` is the outcome of `self.model1.generate_response(model1_name, p)`
   (`some r` bundles a successful call whose payload dict has `"response"` field `r`;
   `none` is the failure value `None`),
 - `gen2 q` likewise for `self.model2.generate_response(model2_name, q)`,
 - `mkOptPrompt` is `self._create_optimization_prompt`, i.e.
   `PromptEngineer.enhance_prompt` applied to disk-loaded templates — an
   external collaborator, supplied as an opaque string function,
 - `clock n` is the value of the n-th call to `datetime.now()` in this invocation.
A fixed `LoopEnv` is a deterministic Generation Service stub. -/
structure LoopEnv where
  gen1 : String → Option String
  gen2 : String → Option String
  mkOptPrompt : String → String → String
  clock : Nat → ℚ

/-- Embeds the `for iteration in range(max_iterations)` loop of
`OptimizationLoop.optimize_prompt` (`optimizer.py` lines 31-85), recursing on the
remaining iteration count.  Arguments mirror the Python locals: `iter` is the
current `iteration` index, `current_prompt`, `best_score`, `best` (= `best_result`)
as in the source; the sixth argument is the binding of the local `response`
(`none` = never assigned, `some none` = assigned `None`, `some (some r)` =
assigned a dict with `"response"` field `r`); `tick` counts `datetime.now()` calls.
Returns the state at loop exit, or the Python exception that escaped:
 - a failing first executor call or optimizer call hits `if not ...: break`;
 - a failing re-run executor call is NOT checked in the source, so
   `new_response["response"]` raises `TypeError`;
 - `_calculate_improvement` raises `ZeroDivisionError` on an empty response. -/
def runLoop (env : LoopEnv) (improvement_threshold : ℚ) (startTime : ℚ) (prompt : String) :
    Nat → Nat → String → ℚ → Option OptimizationResult → Option (Option String) → Nat →
    Except PyError (Option OptimizationResult × Option (Option String) × Nat)
  | 0, _, _, _, best, respBind, tick => Except.ok (best, respBind, tick)
  | Nat.succ fuel, iter, current_prompt, best_score, best, _, tick =>
    match env.gen1 current_prompt with
    | none => Except.ok (best, some none, tick)
    | some resp =>
      match env.gen2 (env.mkOptPrompt current_prompt resp) with
      | none => Except.ok (best, some (some resp), tick)
      | some new_prompt =>
        match env.gen1 new_prompt with
        | none => Except.error PyError.typeError
        | some new_resp =>
          match calculate_improvement resp new_resp with
          | Except.error e => Except.error e
          | Except.ok score =>
            if best_score + improvement_threshold < score then
              runLoop env improvement_threshold startTime prompt fuel (iter + 1)
                new_prompt score
                (some { original_prompt := prompt
                        optimized_prompt := new_prompt
                        initial_response := resp
                        final_response := new_resp
                        improvement_score := score
                        created_at := env.clock tick
                        metadata_iterations := iter + 1
                        metadata_duration := some (env.clock (tick + 1) - startTime) })
                (some (some resp)) (tick + 2)
            else Except.ok (best, some (some resp), tick)

/-- Embeds `OptimizationLoop.optimize_prompt` (`optimizer.py` lines 19-95).
After the loop, the source returns `best_result or OptimizationResult(...,
initial_response=response["response"], ...)`: when `best_result` is `None` the
fallback subscripts the loop-local `response`, which raises
`UnboundLocalError` if the loop body never ran (`max_iterations = 0`) and
`TypeError` if the last first-executor call returned `None`. -/
def optimize_prompt (env : LoopEnv) (prompt : String) (max_iterations : Nat)
    (improvement_threshold : ℚ) : Except PyError OptimizationResult :=
  match runLoop env improvement_threshold (env.clock 0) prompt max_iterations 0 prompt 0 none none 1 with
  | Except.error e => Except.error e
  | Except.ok (some best, _, _) => Except.ok best
  | Except.ok (none, respBind, tick) =>
    match respBind with
    | none => Except.error PyError.unboundLocalError
    | some none => Except.error PyError.typeError
    | some (some resp) =>
      Except.ok { original_prompt := prompt
                  optimized_prompt := prompt
                  initial_response := resp
                  final_response := resp
                  improvement_score := 0
                  created_at := env.clock tick
                  metadata_iterations := 0
                  metadata_duration := none }

/-- Successful runs of `_calculate_improvement` require a non-empty original
response, and the score is exactly the length ratio. -/
theorem calculate_improvement_ok (a b : String) (q : ℚ)
    (h : calculate_improvement a b = Except.ok q) :
    a.length ≠ 0 ∧ q = (b.length : ℚ) / (a.length : ℚ) := by
  unfold calculate_improvement at h
  split at h
  · exact absurd h (by simp)
  · exact ⟨by assumption, (Except.ok.inj h).symm⟩

/-- Any score `_calculate_improvement` returns is non-negative. -/
theorem calculate_improvement_nonneg (a b : String) (q : ℚ)
    (h : calculate_improvement a b = Except.ok q) : 0 ≤ q := by
  obtain ⟨-, rfl⟩ := calculate_improvement_ok a b q h
  positivity

/-- Counterexample for C3: the core optimizer's `_calculate_improvement`
(`optimizer.py` lines 104-108) does not return `0.0` on an empty original
response — it raises `ZeroDivisionError`, so the claimed totality fails. -/
theorem calculate_improvement_empty_original_raises :
    calculate_improvement "" "x" = Except.error PyError.zeroDivisionError := rfl

/-- C3 (amended): the pipeline's `_calculate_improvement`
(`pipeline.py` lines 111-123) satisfies the spec contract — non-negative, the
length ratio for a non-empty original response and `0.0` for an empty one —
while the core optimizer's `_calculate_improvement` agrees with the ratio only
for a non-empty original response and raises `ZeroDivisionError` on an empty
one. -/
theorem improvement_score_contract (a b : String) :
    0 ≤ pipeline_calculate_improvement a b ∧
    (0 < a.length → pipeline_calculate_improvement a b = (b.length : ℚ) / (a.length : ℚ)) ∧
    (a.length = 0 → pipeline_calculate_improvement a b = 0) ∧
    (0 < a.length → calculate_improvement a b = Except.ok ((b.length : ℚ) / (a.length : ℚ))) ∧
    (a.length = 0 → calculate_improvement a b = Except.error PyError.zeroDivisionError) := by
  unfold pipeline_calculate_improvement calculate_improvement
  refine ⟨?_, ?_, ?_, ?_, ?_⟩
  · split
    · positivity
    · exact le_refl 0
  · intro h; simp [h]
  · intro h; simp [h]
  · intro h; simp [Nat.pos_iff_ne_zero.mp h]
  · intro h; simp [h]

/-- Witness for C3's theorem at the concrete pair ("ab", "abcd"). -/
theorem improvement_score_contract_witness :
    0 < ("ab" : String).length ∧
    calculate_improvement "ab" "abcd" =
      Except.ok ((("abcd" : String).length : ℚ) / (("ab" : String).length : ℚ)) :=
  ⟨by decide, (improvement_score_contract "ab" "abcd").2.2.2.1 (by decide)⟩

/-- Deterministic Generation Service stub on which the candidate re-run
(the third client call of a round) fails: `gen1` succeeds on the original
prompt only, the optimizer call succeeds with candidate prompt "cand", and
`gen1 "cand"` returns `None`. -/
def envRerunFail : LoopEnv :=
  { gen1 := fun p => if p = "orig" then some "resp1" else none
    gen2 := fun _ => some "cand"
    mkOptPrompt := fun _ _ => "q"
    clock := fun _ => 0 }

/-- Deterministic Generation Service stub on which the very first executor
call fails. -/
def envFirstFail : LoopEnv :=
  { gen1 := fun _ => none
    gen2 := fun _ => some "cand"
    mkOptPrompt := fun _ _ => "q"
    clock := fun _ => 0 }

/-- C1 fails on the code: a Generation Client failure does NOT always degrade
to returning the best candidate so far.  When the re-run executor call on the
candidate prompt returns `None`, `new_response["response"]` (`optimizer.py`
line 65) raises `TypeError`; and when the first executor call fails with no
completed round, the fallback `response["response"]` (line 90) subscripts
`None` and raises `TypeError` as well.  This theorem evaluates the embedded
code at both failing inputs. -/
theorem optimize_prompt_failure_raises :
    optimize_prompt envRerunFail "orig" 3 (1 / 10) = Except.error PyError.typeError ∧
    optimize_prompt envFirstFail "p" 3 (1 / 10) = Except.error PyError.typeError :=
  ⟨rfl, rfl⟩

/-- C5 fails on the code: with `max_iterations = 0` the loop body never runs,
`best_result` is `None`, and the fallback result constructor reads the local
`response` that was never assigned (`optimizer.py` line 90), raising
`UnboundLocalError` instead of returning a zero-round result. -/
theorem optimize_prompt_zero_iterations_raises (env : LoopEnv) (prompt : String)
    (improvement_threshold : ℚ) :
    optimize_prompt env prompt 0 improvement_threshold =
      Except.error PyError.unboundLocalError := rfl

/-- Loop invariant of `runLoop`: every accumulated `best_result` carries a
non-negative score, a positive metadata iteration count and the original
prompt. -/
theorem runLoop_best_invariant (env : LoopEnv) (thr st : ℚ) (prompt : String) :
    ∀ fuel iter current bscore best respBind tick b rb t,
      runLoop env thr st prompt fuel iter current bscore best respBind tick =
        Except.ok (b, rb, t) →
      (∀ r, best = some r → 0 ≤ r.improvement_score ∧ 1 ≤ r.metadata_iterations ∧
        r.original_prompt = prompt) →
      ∀ r, b = some r → 0 ≤ r.improvement_score ∧ 1 ≤ r.metadata_iterations ∧
        r.original_prompt = prompt := by
  intro fuel
  induction fuel with
  | zero =>
    intro iter current bscore best respBind tick b rb t h hinv r hr
    rw [runLoop] at h
    simp only [Except.ok.injEq, Prod.mk.injEq] at h
    obtain ⟨hb, -, -⟩ := h
    exact hinv r (by rw [hb]; exact hr)
  | succ fuel ih =>
    intro iter current bscore best respBind tick b rb t h hinv r hr
    rw [runLoop] at h
    split at h
    · simp only [Except.ok.injEq, Prod.mk.injEq] at h
      obtain ⟨hb, -, -⟩ := h
      exact hinv r (by rw [hb]; exact hr)
    · split at h
      · simp only [Except.ok.injEq, Prod.mk.injEq] at h
        obtain ⟨hb, -, -⟩ := h
        exact hinv r (by rw [hb]; exact hr)
      · split at h
        · exact absurd h (by simp)
        · split at h
          · exact absurd h (by simp)
          · split at h
            · refine ih _ _ _ _ _ _ _ _ _ h ?_ r hr
              intro r' hr'
              obtain rfl := Option.some.inj hr'
              exact ⟨calculate_improvement_nonneg _ _ _ (by assumption),
                Nat.succ_le_succ (Nat.zero_le iter), rfl⟩
            · simp only [Except.ok.injEq, Prod.mk.injEq] at h
              obtain ⟨hb, -, -⟩ := h
              exact hinv r (by rw [hb]; exact hr)

/-- C2: every `OptimizationResult` that `optimize_prompt` actually returns has
a non-negative `improvement_score`, and a zero recorded round count implies
the optimized prompt equals the original prompt. -/
theorem optimize_prompt_result_invariant (env : LoopEnv) (prompt : String)
    (max_iterations : Nat) (improvement_threshold : ℚ) (r : OptimizationResult)
    (h : optimize_prompt env prompt max_iterations improvement_threshold = Except.ok r) :
    0 ≤ r.improvement_score ∧
      (r.metadata_iterations = 0 → r.optimized_prompt = r.original_prompt) := by
  unfold optimize_prompt at h
  split at h
  · exact absurd h (by simp)
  · rename_i best rb t hrun
    obtain rfl := Except.ok.inj h
    obtain ⟨h1, h2, -⟩ :=
      runLoop_best_invariant env improvement_threshold (env.clock 0) prompt
        max_iterations 0 prompt 0 none none 1 (some best) rb t hrun
        (by intro r' hr'; exact absurd hr' (by simp)) best rfl
    exact ⟨h1, fun h0 => absurd (h0 ▸ h2) (by simp)⟩
  · split at h
    · exact absurd h (by simp)
    · exact absurd h (by simp)
    · obtain rfl := Except.ok.inj h
      exact ⟨le_refl 0, fun _ => rfl⟩

/-- Deterministic stub whose optimizer call fails, so the loop returns the
zero-round fallback result. -/
def envOptFail : LoopEnv :=
  { gen1 := fun _ => some "abcd"
    gen2 := fun _ => none
    mkOptPrompt := fun p rsp => p ++ rsp
    clock := fun _ => 0 }

/-- Witness for C2's theorem on a run of `optimize_prompt` against `envOptFail`. -/
theorem optimize_prompt_result_invariant_witness :
    0 ≤ (OptimizationResult.mk "p" "p" "abcd" "abcd" 0 0 0 none).improvement_score ∧
      ((OptimizationResult.mk "p" "p" "abcd" "abcd" 0 0 0 none).metadata_iterations = 0 →
        (OptimizationResult.mk "p" "p" "abcd" "abcd" 0 0 0 none).optimized_prompt =
          (OptimizationResult.mk "p" "p" "abcd" "abcd" 0 0 0 none).original_prompt) :=
  optimize_prompt_result_invariant envOptFail "p" 3 (1 / 10)
    (OptimizationResult.mk "p" "p" "abcd" "abcd" 0 0 0 none) rfl

/-- Follows the spec's words (§4.3, §8) for the acceptance rule of the
Refinement Loop: starting from the current prompt with the current best score,
a completed round is accepted iff `score > best_score + improvement_threshold`,
in which case the best score becomes the round's score, the current prompt
becomes the candidate prompt and the loop continues; any other outcome of a
round (a client failure or a non-improving score) stops the loop.  Returns
(number of accepted rounds, final accepted prompt, final best score). -/
def specAcceptedRounds (env : LoopEnv) (improvement_threshold : ℚ) :
    Nat → String → ℚ → Nat × String × ℚ
  | 0, current, best => (0, current, best)
  | Nat.succ fuel, current, best =>
    match env.gen1 current with
    | none => (0, current, best)
    | some resp =>
      match env.gen2 (env.mkOptPrompt current resp) with
      | none => (0, current, best)
      | some new_prompt =>
        match env.gen1 new_prompt with
        | none => (0, current, best)
        | some new_resp =>
          if resp.length = 0 then (0, current, best)
          else
            let score := (new_resp.length : ℚ) / (resp.length : ℚ)
            if best + improvement_threshold < score then
              let next := specAcceptedRounds env improvement_threshold fuel new_prompt score
              (next.1 + 1, next.2)
            else (0, current, best)

/-- When `specAcceptedRounds` accepts no round it reports back its starting
prompt and starting best score unchanged. -/
theorem specAcceptedRounds_zero (env : LoopEnv) (thr : ℚ) (fuel : Nat)
    (current : String) (best : ℚ)
    (h : (specAcceptedRounds env thr fuel current best).1 = 0) :
    (specAcceptedRounds env thr fuel current best).2 = (current, best) := by
  cases fuel with
  | zero => rfl
  | succ fuel =>
    rw [specAcceptedRounds] at h ⊢
    cases hg1 : env.gen1 current with
    | none => simp [hg1]
    | some resp =>
      simp only [hg1] at h ⊢
      cases hg2 : env.gen2 (env.mkOptPrompt current resp) with
      | none => simp
      | some new_prompt =>
        simp only [hg2] at h ⊢
        cases hg3 : env.gen1 new_prompt with
        | none => simp
        | some new_resp =>
          simp only [hg3] at h ⊢
          by_cases hlen : resp.length = 0
          · simp [hlen]
          · simp only [if_neg hlen] at h ⊢
            by_cases hacc : best + thr < (new_resp.length : ℚ) / (resp.length : ℚ)
            · simp only [if_pos hacc] at h
              simp at h
            · simp [if_neg hacc]

/-- The loop of `optimize_prompt` refines the spec-side acceptance state
machine: whenever the loop exits normally, either no round was accepted and
`best_result` is unchanged, or the accumulated `best_result` records exactly
the accepted-round count, the last accepted prompt and the best score of
`specAcceptedRounds`. -/
theorem runLoop_spec_rounds (env : LoopEnv) (thr st : ℚ) (prompt : String) :
    ∀ fuel iter current bscore best respBind tick b rb t,
      runLoop env thr st prompt fuel iter current bscore best respBind tick =
        Except.ok (b, rb, t) →
      ((specAcceptedRounds env thr fuel current bscore).1 = 0 → b = best) ∧
      (0 < (specAcceptedRounds env thr fuel current bscore).1 →
        ∃ r, b = some r ∧
          r.metadata_iterations = iter + (specAcceptedRounds env thr fuel current bscore).1 ∧
          r.optimized_prompt = (specAcceptedRounds env thr fuel current bscore).2.1 ∧
          r.improvement_score = (specAcceptedRounds env thr fuel current bscore).2.2) := by
  intro fuel
  induction fuel with
  | zero =>
    intro iter current bscore best respBind tick b rb t h
    rw [runLoop] at h
    simp only [Except.ok.injEq, Prod.mk.injEq] at h
    obtain ⟨hb, -, -⟩ := h
    exact ⟨fun _ => hb.symm, fun hpos => absurd hpos (by simp [specAcceptedRounds])⟩
  | succ fuel ih =>
    intro iter current bscore best respBind tick b rb t h
    rw [runLoop] at h
    split at h
    · rename_i hg1
      simp only [Except.ok.injEq, Prod.mk.injEq] at h
      obtain ⟨hb, -, -⟩ := h
      refine ⟨fun _ => hb.symm, fun hpos => ?_⟩
      rw [specAcceptedRounds] at hpos
      simp [hg1] at hpos
    · rename_i resp hg1
      split at h
      · rename_i hg2
        simp only [Except.ok.injEq, Prod.mk.injEq] at h
        obtain ⟨hb, -, -⟩ := h
        refine ⟨fun _ => hb.symm, fun hpos => ?_⟩
        rw [specAcceptedRounds] at hpos
        simp [hg1, hg2] at hpos
      · rename_i new_prompt hg2
        split at h
        · exact absurd h (by simp)
        · rename_i new_resp hg3
          split at h
          · exact absurd h (by simp)
          · rename_i score hscore
            obtain ⟨hlen, rfl⟩ := calculate_improvement_ok resp new_resp score hscore
            have hspec : specAcceptedRounds env thr (fuel + 1) current bscore =
                (if bscore + thr < (new_resp.length : ℚ) / (resp.length : ℚ) then
                  ((specAcceptedRounds env thr fuel new_prompt
                      ((new_resp.length : ℚ) / (resp.length : ℚ))).1 + 1,
                    (specAcceptedRounds env thr fuel new_prompt
                      ((new_resp.length : ℚ) / (resp.length : ℚ))).2)
                 else (0, current, bscore)) := by
              rw [specAcceptedRounds]
              simp [hg1, hg2, hg3, hlen]
            split at h
            · rename_i hacc
              rw [hspec, if_pos hacc]
              obtain ⟨hz, hp⟩ :=
                ih (iter + 1) new_prompt _ _ (some (some resp)) (tick + 2) b rb t h
              constructor
              · intro hc
                exact absurd hc (by simp)
              · intro _
                rcases Nat.eq_zero_or_pos
                    (specAcceptedRounds env thr fuel new_prompt
                      ((new_resp.length : ℚ) / (resp.length : ℚ))).1 with hz0 | hpos
                · have h2 := specAcceptedRounds_zero env thr fuel new_prompt _ hz0
                  refine ⟨_, hz hz0, ?_, ?_, ?_⟩
                  · simp [hz0]
                  · simp [h2]
                  · simp [h2]
                · obtain ⟨r, hbr, h1, h2, h3⟩ := hp hpos
                  refine ⟨r, hbr, ?_, by simpa using h2, by simpa using h3⟩
                  rw [h1]
                  dsimp only
                  omega
            · rename_i hacc
              rw [hspec, if_neg hacc]
              simp only [Except.ok.injEq, Prod.mk.injEq] at h
              obtain ⟨hb, -, -⟩ := h
              exact ⟨fun _ => hb.symm, fun hpos => absurd hpos (by simp)⟩

/-- C4: whenever `optimize_prompt` returns a result, the reported metadata
round count, the reported optimized prompt and the reported best score are
exactly those of the spec-side acceptance state machine `specAcceptedRounds`
started at the original prompt with best score 0 — in particular the round
count equals the number of rounds that accepted an improvement (0 if none
did), and each round is accepted iff `score > best_score + threshold`. -/
theorem optimize_prompt_round_count (env : LoopEnv) (prompt : String)
    (max_iterations : Nat) (improvement_threshold : ℚ) (r : OptimizationResult)
    (h : optimize_prompt env prompt max_iterations improvement_threshold = Except.ok r) :
    (r.metadata_iterations, r.optimized_prompt, r.improvement_score) =
      specAcceptedRounds env improvement_threshold max_iterations prompt 0 := by
  unfold optimize_prompt at h
  split at h
  · exact absurd h (by simp)
  · rename_i best rb t hrun
    obtain rfl := Except.ok.inj h
    obtain ⟨hz, hp⟩ :=
      runLoop_spec_rounds env improvement_threshold (env.clock 0) prompt
        max_iterations 0 prompt 0 none none 1 (some best) rb t hrun
    rcases Nat.eq_zero_or_pos
        (specAcceptedRounds env improvement_threshold max_iterations prompt 0).1 with hz0 | hpos
    · exact absurd (hz hz0) (by simp)
    · obtain ⟨r', hbr, h1, h2, h3⟩ := hp hpos
      obtain rfl := Option.some.inj hbr
      simp only [Prod.ext_iff]
      exact ⟨by simpa using h1, by simpa using h2, by simpa using h3⟩
  · rename_i respBind tick hrun
    split at h
    · exact absurd h (by simp)
    · exact absurd h (by simp)
    · rename_i resp
      obtain ⟨hz, hp⟩ :=
        runLoop_spec_rounds env improvement_threshold (env.clock 0) prompt
          max_iterations 0 prompt 0 none none 1 none _ tick hrun
      obtain rfl := Except.ok.inj h
      rcases Nat.eq_zero_or_pos
          (specAcceptedRounds env improvement_threshold max_iterations prompt 0).1 with hz0 | hpos
      · have h2 := specAcceptedRounds_zero env improvement_threshold max_iterations prompt 0 hz0
        simp only [Prod.ext_iff]
        exact ⟨by simpa using hz0.symm, by simp [h2], by simp [h2]⟩
      · obtain ⟨r', hbr, -⟩ := hp hpos
        exact absurd hbr (by simp)

/-- Witness for C4's theorem on a run whose optimizer call fails in round 0,
so no round accepts an improvement and the reported count is 0. -/
theorem optimize_prompt_round_count_witness :
    ((0 : Nat), "p", (0 : ℚ)) =
      specAcceptedRounds envOptFail (1 / 10) 3 "p" 0 :=
  optimize_prompt_round_count envOptFail "p" 3 (1 / 10)
    (OptimizationResult.mk "p" "p" "abcd" "abcd" 0 0 0 none) rfl

/-- Strips the wall-clock readings (`created_at` and the metadata `duration`)
from an `OptimizationResult`, keeping every other field. -/
def eraseTimes (r : OptimizationResult) : OptimizationResult :=
  { r with created_at := 0, metadata_duration := none }

/-- Two loop outcomes agree up to wall-clock readings: the same exception, or
the same `response` binding and best results equal after stripping
timestamps. -/
def SameLoopOutcome :
    Except PyError (Option OptimizationResult × Option (Option String) × Nat) →
    Except PyError (Option OptimizationResult × Option (Option String) × Nat) → Prop
  | Except.error e, Except.error e' => e = e'
  | Except.ok (b, rb, _), Except.ok (b', rb', _) =>
      Option.map eraseTimes b = Option.map eraseTimes b' ∧ rb = rb'
  | _, _ => False

/-- Runs of the loop under environments that agree on the Generation Service
stub and the template formatter — but may read different wall clocks — have
the same outcome up to timestamps. -/
theorem runLoop_modulo_time (env env' : LoopEnv) (thr st st' : ℚ) (prompt : String)
    (h1 : env.gen1 = env'.gen1) (h2 : env.gen2 = env'.gen2)
    (h3 : env.mkOptPrompt = env'.mkOptPrompt) :
    ∀ fuel iter current bscore best best' respBind tick tick',
      Option.map eraseTimes best = Option.map eraseTimes best' →
      SameLoopOutcome (runLoop env thr st prompt fuel iter current bscore best respBind tick)
        (runLoop env' thr st' prompt fuel iter current bscore best' respBind tick') := by
  intro fuel
  induction fuel with
  | zero =>
    intro iter current bscore best best' respBind tick tick' hb
    rw [runLoop, runLoop]
    exact ⟨hb, rfl⟩
  | succ fuel ih =>
    intro iter current bscore best best' respBind tick tick' hb
    rw [runLoop, runLoop, ← h1, ← h2, ← h3]
    cases hg1 : env.gen1 current with
    | none => exact ⟨hb, rfl⟩
    | some resp =>
      dsimp only
      cases hg2 : env.gen2 (env.mkOptPrompt current resp) with
      | none => exact ⟨hb, rfl⟩
      | some new_prompt =>
        dsimp only
        cases hg3 : env.gen1 new_prompt with
        | none => exact rfl
        | some new_resp =>
          dsimp only
          cases hc : calculate_improvement resp new_resp with
          | error e => exact rfl
          | ok score =>
            dsimp only
            by_cases hacc : bscore + thr < score
            · rw [if_pos hacc, if_pos hacc]
              exact ih (iter + 1) new_prompt score _ _ (some (some resp)) (tick + 2)
                (tick' + 2) (by simp [eraseTimes])
            · rw [if_neg hacc, if_neg hacc]
              exact ⟨hb, rfl⟩

/-- C6 (amended): re-invoking `optimize_prompt` with identical prompt,
configuration and deterministic Generation Service stub yields the same
outcome up to the wall-clock fields (`created_at` and the metadata
`"duration"` entry), which record the time of the invocation. -/
theorem optimize_prompt_deterministic_modulo_time (env env' : LoopEnv) (prompt : String)
    (max_iterations : Nat) (improvement_threshold : ℚ)
    (h1 : env.gen1 = env'.gen1) (h2 : env.gen2 = env'.gen2)
    (h3 : env.mkOptPrompt = env'.mkOptPrompt) :
    Except.map eraseTimes (optimize_prompt env prompt max_iterations improvement_threshold) =
      Except.map eraseTimes (optimize_prompt env' prompt max_iterations improvement_threshold) := by
  have hrel := runLoop_modulo_time env env' improvement_threshold (env.clock 0) (env'.clock 0)
    prompt h1 h2 h3 max_iterations 0 prompt 0 none none none 1 1 rfl
  unfold optimize_prompt
  cases hA : runLoop env improvement_threshold (env.clock 0) prompt
      max_iterations 0 prompt 0 none none 1 with
  | error e =>
    cases hB : runLoop env' improvement_threshold (env'.clock 0) prompt
        max_iterations 0 prompt 0 none none 1 with
    | error e' =>
      rw [hA, hB] at hrel
      have he : e = e' := hrel
      rw [he]
    | ok pb =>
      obtain ⟨b', rb', t'⟩ := pb
      rw [hA, hB] at hrel
      exact hrel.elim
  | ok pa =>
    obtain ⟨b, rb, t⟩ := pa
    cases hB : runLoop env' improvement_threshold (env'.clock 0) prompt
        max_iterations 0 prompt 0 none none 1 with
    | error e' =>
      rw [hA, hB] at hrel
      exact hrel.elim
    | ok pb =>
      obtain ⟨b', rb', t'⟩ := pb
      rw [hA, hB] at hrel
      obtain ⟨hbb, hrb⟩ := hrel
      cases b with
      | some r =>
        cases b' with
        | some r' =>
          have : eraseTimes r = eraseTimes r' := by simpa using hbb
          simp [Except.map, this]
        | none => simp at hbb
      | none =>
        cases b' with
        | some r' => simp at hbb
        | none =>
          subst hrb
          cases rb with
          | none => rfl
          | some ro =>
            cases ro with
            | none => rfl
            | some resp => simp [Except.map, eraseTimes]

/-- Deterministic Generation Service stub paired with a wall clock reading 0. -/
def envClock0 : LoopEnv :=
  { gen1 := fun _ => some "ab"
    gen2 := fun _ => none
    mkOptPrompt := fun _ _ => "q"
    clock := fun _ => 0 }

/-- The stub of `envClock0` invoked at a later wall-clock time (readings 1). -/
def envClock1 : LoopEnv :=
  { gen1 := fun _ => some "ab"
    gen2 := fun _ => none
    mkOptPrompt := fun _ _ => "q"
    clock := fun _ => 1 }

/-- Counterexample for C6: two invocations with identical prompt,
configuration and deterministic Generation Service stub are NOT identical
field for field — `created_at = datetime.now()` records the wall clock of
the invocation, which differs between the two calls. -/
theorem optimize_prompt_clock_counterexample :
    optimize_prompt envClock0 "p" 3 (1 / 10) ≠ optimize_prompt envClock1 "p" 3 (1 / 10) := by
  have hA : optimize_prompt envClock0 "p" 3 (1 / 10) =
      Except.ok (OptimizationResult.mk "p" "p" "ab" "ab" 0 0 0 none) := rfl
  have hB : optimize_prompt envClock1 "p" 3 (1 / 10) =
      Except.ok (OptimizationResult.mk "p" "p" "ab" "ab" 0 1 0 none) := rfl
  rw [hA, hB]
  intro hEq
  have h := Except.ok.inj hEq
  simp only [OptimizationResult.mk.injEq] at h
  norm_num at h

/-- Witness for C6's theorem: the two invocations of
`optimize_prompt_clock_counterexample` agree once timestamps are stripped. -/
theorem optimize_prompt_deterministic_modulo_time_witness :
    Except.map eraseTimes (optimize_prompt envClock0 "p" 3 (1 / 10)) =
      Except.map eraseTimes (optimize_prompt envClock1 "p" 3 (1 / 10)) :=
  optimize_prompt_deterministic_modulo_time envClock0 envClock1 "p" 3 (1 / 10) rfl rfl rfl

/-- A JSON leaf value as far as `generate_response` inspects it: a string, or
any non-string JSON value. -/
inductive JLeaf where
  | str (s : String)
  | nonStr
deriving DecidableEq, Repr

/-- A decoded JSON value as far as `generate_response` inspects it: an object
with (string-keyed) fields, or any non-object JSON value (number, string,
array, ...). -/
inductive JVal where
  | obj (fields : List (String × JLeaf))
  | nonObj
deriving DecidableEq, Repr

/-- Outcome of a `requests.post` round trip to the Generation Service:
`status` is the HTTP status code, `whole` the outcome of `response.json()`
(`some v` when the whole body decodes, `none` when `json.JSONDecodeError` is
raised), and `lines` the per-line outcome of `json.loads` over
`response.text.strip().split('\x5cn')` (`none` for an empty line, which the
source skips, or a line that fails to parse, which it also skips). -/
structure HttpResp where
  status : Nat
  whole : Option JVal
  lines : List (Option JVal)

/-- Return value of a successful `generate_response` call: the whole-body
JSON, or the combined dict `{"response": ..., "model": ..., "created_at": ...}`
built from line-delimited fragments. -/
inductive GenRet where
  | fromJson (v : JVal)
  | combined (response : String) (model : String) (created_at : JLeaf)
deriving DecidableEq, Repr

/-- Python `dict.get(key, default)` over the decoded field list (keys of a
Python dict are unique, so first match suffices). -/
def dictGet (fields : List (String × JLeaf)) (key : String) (dflt : JLeaf) : JLeaf :=
  match fields with
  | [] => dflt
  | (k, v) :: rest => if k = key then v else dictGet rest key dflt

/-- Python `r.get(key, default)`: raises `AttributeError` when `r` is not a
dict (e.g. an int decoded from a bare-number JSON line). -/
def pyGet (v : JVal) (key : String) (dflt : JLeaf) : Except PyError JLeaf :=
  match v with
  | JVal.obj fields => Except.ok (dictGet fields key dflt)
  | JVal.nonObj => Except.error PyError.attributeError

/-- Embeds `"".join(r.get("response", "") for r in responses)`
(`ollama_api.py` line 39): concatenates the string `response` fields in
order; a non-dict element raises `AttributeError`, a non-string `response`
field makes `str.join` raise `TypeError`.  (Which of the two exceptions
fires first is irrelevant: the caller converts any exception to `None`.) -/
def joinResponses : List JVal → Except PyError String
  | [] => Except.ok ""
  | v :: vs =>
    match pyGet v "response" (JLeaf.str "") with
    | Except.error e => Except.error e
    | Except.ok (JLeaf.str s) =>
      match joinResponses vs with
      | Except.error e => Except.error e
      | Except.ok rest => Except.ok (s ++ rest)
    | Except.ok JLeaf.nonStr => Except.error PyError.typeError

/-- The body of `OllamaAPI.generate_response` (`ollama_api.py` lines 12-46)
minus its outer `try/except`: raises `requestError` when `requests.post`
raises, returns the whole-body JSON on a 200 status when it decodes,
otherwise combines the parseable newline-delimited fragments, and returns
`None` (`Except.ok none`) when no fragment parses or the status is not 200. -/
def genBody (post : Option HttpResp) (model : String) : Except PyError (Option GenRet) :=
  match post with
  | none => Except.error PyError.requestError
  | some resp =>
    if resp.status = 200 then
      match resp.whole with
      | some v => Except.ok (some (GenRet.fromJson v))
      | none =>
        match resp.lines.filterMap id with
        | [] => Except.ok none
        | v :: vs =>
          match joinResponses (v :: vs) with
          | Except.error e => Except.error e
          | Except.ok s =>
            match pyGet v "created_at" (JLeaf.str "") with
            | Except.error e => Except.error e
            | Except.ok ca => Except.ok (some (GenRet.combined s model ca))
    else Except.ok none

/-- Embeds `OllamaAPI.generate_response` (`ollama_api.py` lines 10-50): the
outer `try/except Exception` converts every exception raised by the body
into the return value `None`. -/
def generate_response (post : Option HttpResp) (model : String) : Option GenRet :=
  match genBody post model with
  | Except.ok r => r
  | Except.error _ => none

/-- Counterexample for C7: on a non-2xx status the call does not return a
`GenerationResult` carrying `success=false` and an error kind — it returns
the bare failure value `None`, which carries no success flag and no error
kind at all (the error taxonomy exists only in the spec, not in this code). -/
theorem generate_response_bad_status_returns_none :
    generate_response (some (HttpResp.mk 500 none [])) "m" = none := rfl

/-- C7 (amended): on every transport or protocol failure — `requests.post`
raising, a non-2xx status, or a 200 body that decodes neither as a whole nor
line-by-line — `generate_response` returns the failure value `None` rather
than a structured error record, and it never raises: every exception of the
body is caught and converted to `None`. -/
theorem generate_response_failure_contract (post : Option HttpResp) (model : String) :
    (post = none → generate_response post model = none) ∧
    (∀ resp, post = some resp → resp.status ≠ 200 → generate_response post model = none) ∧
    (∀ resp, post = some resp → resp.status = 200 → resp.whole = none →
      resp.lines.filterMap id = [] → generate_response post model = none) ∧
    (∀ e, genBody post model = Except.error e → generate_response post model = none) := by
  refine ⟨?_, ?_, ?_, ?_⟩
  · intro h
    subst h
    rfl
  · intro resp h hs
    subst h
    simp [generate_response, genBody, hs]
  · intro resp h hs hw hl
    subst h
    simp [generate_response, genBody, hs, hw, hl]
  · intro e h
    simp [generate_response, h]

/-- Witness for C7's theorem: a raising `requests.post` yields `None`. -/
theorem generate_response_failure_contract_witness :
    generate_response none "m" = none :=
  (generate_response_failure_contract none "m").1 rfl

/-- A line value is benign for the combination step: a JSON object whose
`response` entry (when present) is a string. -/
def goodLine : JVal → Prop
  | JVal.obj fields =>
    match dictGet fields "response" (JLeaf.str "") with
    | JLeaf.str _ => True
    | JLeaf.nonStr => False
  | JVal.nonObj => False

/-- The `response` fragment a parsed line contributes to the combined text,
following the spec's words: the line's `response` field, or the empty string
when absent. -/
def specLineResponse : JVal → String
  | JVal.obj fields =>
    match dictGet fields "response" (JLeaf.str "") with
    | JLeaf.str s => s
    | JLeaf.nonStr => ""
  | JVal.nonObj => ""

/-- In-order concatenation of the parsed lines' response fragments. -/
def specConcatResponses : List JVal → String
  | [] => ""
  | v :: vs => specLineResponse v ++ specConcatResponses vs

/-- On benign lines the join of `generate_response` succeeds and produces the
in-order concatenation of the response fragments. -/
theorem joinResponses_ok (l : List JVal) (h : ∀ v ∈ l, goodLine v) :
    joinResponses l = Except.ok (specConcatResponses l) := by
  induction l with
  | nil => rfl
  | cons v vs ih =>
    have hv : goodLine v := h v (by simp)
    cases v with
    | nonObj => exact absurd hv (by simp [goodLine])
    | obj fields =>
      rw [joinResponses]
      cases hf : dictGet fields "response" (JLeaf.str "") with
      | nonStr => rw [goodLine] at hv; rw [hf] at hv; exact hv.elim
      | str s =>
        rw [ih (fun w hw => h w (by simp [hw]))]
        simp [pyGet, hf, specConcatResponses, specLineResponse, String.join]

/-- Counterexample for C10: a 200 body whose whole-body decode fails and
whose first line parses as the JSON number `123` (not an object) while the
second line parses as an object with a `response` field.  The claim says the
combined result `"hi"` is returned; the code appends the non-object to
`responses`, `r.get("response", "")` raises `AttributeError`, the outer
handler swallows it, and `None` is returned. -/
theorem generate_response_nonobject_line_counterexample :
    generate_response
      (some (HttpResp.mk 200 none
        [some JVal.nonObj, some (JVal.obj [("response", JLeaf.str "hi")])])) "m" = none := rfl

/-- C10 (amended): for a 200 payload whose whole-body decode fails, if every
line that parses yields a JSON object whose `response` entry (when present)
is a string, then `generate_response` returns the combined result whose
`response` is the in-order concatenation of the parsed lines' response
fragments — silently skipping lines that fail to parse — and returns `None`
when no line parses.  (When some line parses to a non-object JSON value the
combination step raises internally and the call returns `None`, refuting the
unconditional claim.) -/
theorem generate_response_stream_fallback (lines : List (Option JVal)) (model : String)
    (hgood : ∀ v ∈ lines.filterMap id, goodLine v) :
    (lines.filterMap id = [] →
      generate_response (some (HttpResp.mk 200 none lines)) model = none) ∧
    (∀ v vs, lines.filterMap id = v :: vs →
      ∃ ca, pyGet v "created_at" (JLeaf.str "") = Except.ok ca ∧
        generate_response (some (HttpResp.mk 200 none lines)) model =
          some (GenRet.combined (specConcatResponses (v :: vs)) model ca)) := by
  constructor
  · intro hl
    simp [generate_response, genBody, hl]
  · intro v vs hl
    have hv : goodLine v := hgood v (by rw [hl]; simp)
    cases v with
    | nonObj => exact absurd hv (by simp [goodLine])
    | obj fields =>
      refine ⟨dictGet fields "created_at" (JLeaf.str ""), rfl, ?_⟩
      have hjoin := joinResponses_ok (JVal.obj fields :: vs)
        (by rw [← hl]; exact hgood)
      simp [generate_response, genBody, hl, hjoin, pyGet]

/-- Witness for C10's theorem: one unparseable line, one line with a
`response` fragment and one object line without a `response` field combine
to the fragment itself. -/
theorem generate_response_stream_fallback_witness :
    generate_response
      (some (HttpResp.mk 200 none
        [none, some (JVal.obj [("response", JLeaf.str "ab")]), some (JVal.obj [])])) "m" =
      some (GenRet.combined
        (specConcatResponses [JVal.obj [("response", JLeaf.str "ab")], JVal.obj []])
        "m" (JLeaf.str "")) := by
  obtain ⟨ca, hca, hres⟩ :=
    (generate_response_stream_fallback
      [none, some (JVal.obj [("response", JLeaf.str "ab")]), some (JVal.obj [])] "m"
      (by
        intro v hv
        rw [show ([none, some (JVal.obj [("response", JLeaf.str "ab")]),
            some (JVal.obj [])].filterMap id) =
            [JVal.obj [("response", JLeaf.str "ab")], JVal.obj []] from rfl] at hv
        rcases List.mem_cons.mp hv with rfl | hv2
        · simp [goodLine, dictGet]
        · rcases List.mem_cons.mp hv2 with rfl | hv3
          · simp [goodLine, dictGet]
          · exact absurd hv3 (by simp))).2
      (JVal.obj [("response", JLeaf.str "ab")]) [JVal.obj []] rfl
  have hca0 : pyGet (JVal.obj [("response", JLeaf.str "ab")]) "created_at" (JLeaf.str "") =
      Except.ok (JLeaf.str "") := rfl
  rw [hca0] at hca
  obtain rfl := Except.ok.inj hca
  exact hres

/-- Outcome of `AdvancedModelTester.generate_response`
(`advanced_model_testing.py` lines 54-98) as consumed by the concurrent
test: the `"success"` flag and the measured `"response_time"`. -/
structure TestCallResult where
  success : Bool
  response_time : ℚ
deriving DecidableEq, Repr

/-- One record appended to `concurrent_results` by
`AdvancedModelTester.test_concurrent_performance`
(`advanced_model_testing.py` lines 183-191). -/
structure ConcurrentRecord where
  iteration : Nat
  total_time : ℚ
  model1_success : Bool
  model2_success : Bool
  model1_time : ℚ
  model2_time : ℚ
  both_successful : Bool
deriving DecidableEq, Repr

/-- Embeds the dict literal of lines 183-191: the record built from the two
futures' results of iteration `i` and the combined wall-clock time. -/
def mkConcurrentRecord (i : Nat) (total_time : ℚ) (r1 r2 : TestCallResult) :
    ConcurrentRecord :=
  { iteration := i + 1
    total_time := total_time
    model1_success := r1.success
    model2_success := r2.success
    model1_time := r1.response_time
    model2_time := r2.response_time
    both_successful := r1.success && r2.success }

/-- Embeds the iteration loop of `test_concurrent_performance`
(lines 164-193).  The two `ThreadPoolExecutor` futures of iteration `i` are
`run1 i` and `run2 i` (both futures are awaited with `.result()` before the
record is built, so both oracles are always consulted); `times i` is the
measured combined wall-clock time of iteration `i`. -/
def concurrent_results (run1 run2 : Nat → TestCallResult) (times : Nat → ℚ)
    (iterations : Nat) : List ConcurrentRecord :=
  (List.range iterations).map fun i => mkConcurrentRecord i (times i) (run1 i) (run2 i)

/-- C8: in every recorded run of the concurrent benchmark, the per-model
success flags and latencies reflect the corresponding call's actual outcome,
one call's failure never prevents the other call's result from being
recorded, and the overall flag `both_successful` is true iff both per-model
calls succeeded. -/
theorem concurrent_record_reflects_outcomes (run1 run2 : Nat → TestCallResult)
    (times : Nat → ℚ) (iterations i : Nat) (h : i < iterations) :
    ∃ rec, (concurrent_results run1 run2 times iterations).get? i = some rec ∧
      rec.model1_success = (run1 i).success ∧
      rec.model2_success = (run2 i).success ∧
      rec.model1_time = (run1 i).response_time ∧
      rec.model2_time = (run2 i).response_time ∧
      (rec.both_successful = true ↔
        ((run1 i).success = true ∧ (run2 i).success = true)) := by
  refine ⟨mkConcurrentRecord i (times i) (run1 i) (run2 i), ?_, rfl, rfl, rfl, rfl, ?_⟩
  · rw [concurrent_results, List.get?_map, List.get?_range h]
    rfl
  · simp [mkConcurrentRecord, Bool.and_eq_true]

/-- A run oracle that always succeeds instantly. -/
def runAlwaysOk : Nat → TestCallResult := fun _ => TestCallResult.mk true 1

/-- A run oracle that always fails. -/
def runAlwaysFail : Nat → TestCallResult := fun _ => TestCallResult.mk false 2

/-- Witness for C8's theorem: one model always succeeds, the other always
fails; the record of iteration 0 exists, reflects both outcomes, and its
overall flag is false. -/
theorem concurrent_record_reflects_outcomes_witness :
    (0 : Nat) < 1 ∧
    ∃ rec, (concurrent_results runAlwaysOk runAlwaysFail (fun _ => 3) 1).get? 0 = some rec ∧
      rec.model1_success = (runAlwaysOk 0).success ∧
      rec.model2_success = (runAlwaysFail 0).success ∧
      rec.model1_time = (runAlwaysOk 0).response_time ∧
      rec.model2_time = (runAlwaysFail 0).response_time ∧
      (rec.both_successful = true ↔
        ((runAlwaysOk 0).success = true ∧ (runAlwaysFail 0).success = true)) :=
  ⟨by decide,
    concurrent_record_reflects_outcomes runAlwaysOk runAlwaysFail (fun _ => 3) 1 0 (by decide)⟩

/-- Embeds `statistics.mean`: raises `StatisticsError` on an empty list. -/
def pymean (l : List ℚ) : Except PyError ℚ :=
  match l with
  | [] => Except.error PyError.statisticsError
  | x :: xs => Except.ok (((x :: xs).sum) / ((x :: xs).length : ℚ))

/-- Embeds the built-in `max` over a list: raises `ValueError` on an empty
list. -/
def pymax (l : List ℚ) : Except PyError ℚ :=
  match l with
  | [] => Except.error PyError.valueError
  | x :: xs => Except.ok (xs.foldl max x)

/-- Embeds the built-in `min` over a list: raises `ValueError` on an empty
list. -/
def pymin (l : List ℚ) : Except PyError ℚ :=
  match l with
  | [] => Except.error PyError.valueError
  | x :: xs => Except.ok (xs.foldl min x)

/-- Arithmetic mean of a non-empty list, used to state what the aggregation
computes (on `[]` it returns the junk value 0; it is never applied there). -/
def listMean (l : List ℚ) : ℚ := l.sum / (l.length : ℚ)

/-- Maximum of a non-empty list (junk value 0 on `[]`). -/
def listMax : List ℚ → ℚ
  | [] => 0
  | x :: xs => xs.foldl max x

/-- Minimum of a non-empty list (junk value 0 on `[]`). -/
def listMin : List ℚ → ℚ
  | [] => 0
  | x :: xs => xs.foldl min x

/-- One per-prompt result of `test_model_categories` as consumed by its
aggregation (`advanced_model_testing.py` lines 110-133): the success flag,
the measured time, and the quality metrics that are attached to successful
results. -/
structure CatSample where
  success : Bool
  response_time : ℚ
  response_length : Nat
  quality_score : ℚ
deriving DecidableEq, Repr

/-- A per-category summary: the success rate, and the three means that are
present exactly when at least one sample succeeded. -/
structure CategorySummary where
  success_rate : ℚ
  stats : Option (ℚ × ℚ × ℚ)
deriving DecidableEq, Repr

/-- Embeds the per-category aggregation of
`AdvancedModelTester.test_model_categories` (`advanced_model_testing.py`
lines 122-133): statistics are taken over `successful_results` only; with no
successful sample the summary is just `{"success_rate": 0}`. -/
def categorySummary (results : List CatSample) : Except PyError CategorySummary :=
  match results.filter (fun r => r.success) with
  | [] => Except.ok { success_rate := 0, stats := none }
  | v :: vs => do
    let t ← pymean ((v :: vs).map fun r => r.response_time)
    let len ← pymean ((v :: vs).map fun r => (r.response_length : ℚ))
    let q ← pymean ((v :: vs).map fun r => r.quality_score)
    Except.ok { success_rate := (((v :: vs).length : ℚ) / (results.length : ℚ))
                stats := some (t, len, q) }

/-- The summary of `test_concurrent_performance` (lines 196-208): the success
rate over all iterations, and the five statistics over the fully successful
runs that are present exactly when at least one run had both calls succeed. -/
structure ConcurrentSummary where
  success_rate : ℚ
  stats : Option (ℚ × ℚ × ℚ × ℚ × ℚ)
deriving DecidableEq, Repr

/-- Embeds the summary block of `test_concurrent_performance`
(`advanced_model_testing.py` lines 196-208): `successful_runs` is the filter
on `both_successful`; with no such run the summary is `{"success_rate": 0}`. -/
def concurrentSummary (rs : List ConcurrentRecord) : Except PyError ConcurrentSummary :=
  match rs.filter (fun r => r.both_successful) with
  | [] => Except.ok { success_rate := 0, stats := none }
  | v :: vs => do
    let a ← pymean ((v :: vs).map fun r => r.total_time)
    let b ← pymean ((v :: vs).map fun r => r.model1_time)
    let c ← pymean ((v :: vs).map fun r => r.model2_time)
    let d ← pymax ((v :: vs).map fun r => r.total_time)
    let e ← pymin ((v :: vs).map fun r => r.total_time)
    Except.ok { success_rate := (((v :: vs).length : ℚ) / (rs.length : ℚ))
                stats := some (a, b, c, d, e) }

/-- C9: both aggregations never raise; with zero successful samples they
report `success_rate = 0` and omit the rate-dependent statistics; otherwise
every statistic is computed over the successful samples only (the mean, max
and min of the successes' values), so no division by zero occurs. -/
theorem benchmark_aggregation_safe (samples : List CatSample)
    (recs : List ConcurrentRecord) :
    (∃ s, categorySummary samples = Except.ok s) ∧
    (samples.filter (fun r => r.success) = [] →
      categorySummary samples = Except.ok { success_rate := 0, stats := none }) ∧
    (∀ v vs, samples.filter (fun r => r.success) = v :: vs →
      categorySummary samples = Except.ok
        { success_rate := (((v :: vs).length : ℚ) / (samples.length : ℚ))
          stats := some (listMean ((v :: vs).map fun r => r.response_time),
                         listMean ((v :: vs).map fun r => (r.response_length : ℚ)),
                         listMean ((v :: vs).map fun r => r.quality_score)) }) ∧
    (∃ t, concurrentSummary recs = Except.ok t) ∧
    (recs.filter (fun r => r.both_successful) = [] →
      concurrentSummary recs = Except.ok { success_rate := 0, stats := none }) ∧
    (∀ v vs, recs.filter (fun r => r.both_successful) = v :: vs →
      concurrentSummary recs = Except.ok
        { success_rate := (((v :: vs).length : ℚ) / (recs.length : ℚ))
          stats := some (listMean ((v :: vs).map fun r => r.total_time),
                         listMean ((v :: vs).map fun r => r.model1_time),
                         listMean ((v :: vs).map fun r => r.model2_time),
                         listMax ((v :: vs).map fun r => r.total_time),
                         listMin ((v :: vs).map fun r => r.total_time)) }) := by
  have hcat : ∀ v vs, samples.filter (fun r => r.success) = v :: vs →
      categorySummary samples = Except.ok
        { success_rate := (((v :: vs).length : ℚ) / (samples.length : ℚ))
          stats := some (listMean ((v :: vs).map fun r => r.response_time),
                         listMean ((v :: vs).map fun r => (r.response_length : ℚ)),
                         listMean ((v :: vs).map fun r => r.quality_score)) } := by
    intro v vs hf
    rw [categorySummary, hf]
    rfl
  have hcat0 : samples.filter (fun r => r.success) = [] →
      categorySummary samples = Except.ok { success_rate := 0, stats := none } := by
    intro hf
    rw [categorySummary, hf]
  have hconc : ∀ v vs, recs.filter (fun r => r.both_successful) = v :: vs →
      concurrentSummary recs = Except.ok
        { success_rate := (((v :: vs).length : ℚ) / (recs.length : ℚ))
          stats := some (listMean ((v :: vs).map fun r => r.total_time),
                         listMean ((v :: vs).map fun r => r.model1_time),
                         listMean ((v :: vs).map fun r => r.model2_time),
                         listMax ((v :: vs).map fun r => r.total_time),
                         listMin ((v :: vs).map fun r => r.total_time)) } := by
    intro v vs hf
    rw [concurrentSummary, hf]
    rfl
  have hconc0 : recs.filter (fun r => r.both_successful) = [] →
      concurrentSummary recs = Except.ok { success_rate := 0, stats := none } := by
    intro hf
    rw [concurrentSummary, hf]
  refine ⟨?_, hcat0, hcat, ?_, hconc0, hconc⟩
  · cases hf : samples.filter (fun r => r.success) with
    | nil => exact ⟨_, hcat0 hf⟩
    | cons v vs => exact ⟨_, hcat v vs hf⟩
  · cases hf : recs.filter (fun r => r.both_successful) with
    | nil => exact ⟨_, hconc0 hf⟩
    | cons v vs => exact ⟨_, hconc v vs hf⟩

/-- Witness for C9's theorem: a category list with one failed sample
aggregates to the bare `success_rate = 0` summary, and a concurrent run list
with a single fully successful record aggregates to full statistics over
that record. -/
theorem benchmark_aggregation_safe_witness :
    categorySummary [CatSample.mk false 1 2 3] =
      Except.ok { success_rate := 0, stats := none } ∧
    concurrentSummary [ConcurrentRecord.mk 1 5 true true 2 3 true] =
      Except.ok
        { success_rate := (((1 : Nat) : ℚ) / ((1 : Nat) : ℚ))
          stats := some (listMean [5], listMean [2], listMean [3],
                         listMax [5], listMin [5]) } :=
  ⟨(benchmark_aggregation_safe [CatSample.mk false 1 2 3] []).2.1 rfl,
   (benchmark_aggregation_safe [] [ConcurrentRecord.mk 1 5 true true 2 3 true]).2.2.2.2.2
     (ConcurrentRecord.mk 1 5 true true 2 3 true) [] rfl⟩

end PromptTuning
